import Mathlib

/-!
Shallow embedding of libgit2's `src/diff.c` (early diff engine) and proofs
about its delta enumeration, reverse handling, hunk-header parsing, patch
formatting and driver behavior.
-/

namespace GitDiff

/-- Delta status, mirroring `git_status_t` as used in diff.c. -/
inductive GitStatus
  | added
  | deleted
  | modified
  | renamed
  | copied
  | ignored
  | untracked
deriving DecidableEq, Repr

/-- A delta record, mirroring `git_diff_delta`.  Oids are modelled as `Nat`
(the 20-byte hash read as a number); the zero oid is `0`.  `calloc`
zero-initialisation shows up as the `0` defaults of the side not written. -/
structure Delta where
  status : GitStatus
  path : String
  newPath : Option String
  oldAttr : Nat
  newAttr : Nat
  oldOid : Nat
  newOid : Nat
deriving DecidableEq, Repr

/-- The status flip in `file_delta_new__from_one`, mirroring
`status = (status == GIT_STATUS_ADDED) ? GIT_STATUS_DELETED : GIT_STATUS_ADDED`.
Note that any status other than `added` (even `untracked`) maps to `added`. -/
def flipAddDel (s : GitStatus) : GitStatus :=
  if s = .added then .deleted else .added

/-- `file_delta_new__from_one`: single-sided record construction.
The C code calloc-zeroes the record, optionally flips the status under
`GIT_DIFF_REVERSE`, then fills the new side when the (possibly flipped)
status is `added` and the old side otherwise; a NULL `oid` argument leaves
that side's oid at zero.  (The C `assert(status == ADDED || DELETED)` is
compiled out in release builds; diff.c itself calls this function with
`untracked`/`ignored` from `found_new_workdir_entry`.) -/
def file_delta_new__from_one (reverse : Bool) (status : GitStatus)
    (attr : Nat) (oid : Option Nat) (path : String) : Delta :=
  let status := if reverse then flipAddDel status else status
  if status = .added then
    { status := status, path := path, newPath := none,
      oldAttr := 0, newAttr := attr, oldOid := 0, newOid := oid.getD 0 }
  else
    { status := status, path := path, newPath := none,
      oldAttr := attr, newAttr := 0, oldOid := oid.getD 0, newOid := 0 }

/-- The tuple produced by the external tree-diff collaborator
(`git_tree_diff_data`). -/
structure TreeDiffData where
  oldAttr : Nat
  newAttr : Nat
  oldOid : Nat
  newOid : Nat
  status : GitStatus
  path : String
deriving DecidableEq, Repr

/-- `file_delta_new__from_tree_diff`: two-sided record construction.  Without
`GIT_DIFF_REVERSE` the tuple is copied; with it the status is flipped
(added↔deleted, others kept) and the two sides are swapped.  The record path
is taken from the accumulated path buffer `diff->pfx` (argument `pfx`). -/
def file_delta_new__from_tree_diff (reverse : Bool) (pfx : String)
    (t : TreeDiffData) : Delta :=
  if reverse = false then
    { status := t.status, path := pfx, newPath := none,
      oldAttr := t.oldAttr, newAttr := t.newAttr,
      oldOid := t.oldOid, newOid := t.newOid }
  else
    { status := match t.status with
        | .added => .deleted
        | .deleted => .added
        | s => s,
      path := pfx, newPath := none,
      oldAttr := t.newAttr, newAttr := t.oldAttr,
      oldOid := t.newOid, newOid := t.oldOid }

/-- `found_new_workdir_entry`: workdir entries absent from the index become
`ignored` or `untracked` records (built with a NULL oid, so both hashes
stay zero); entries with canonical mode 0 (sockets, fifos, ...) are skipped. -/
def found_new_workdir_entry (reverse : Bool) (ignoredFlag : Bool)
    (mode : Nat) (path : String) : Option Delta :=
  if mode = 0 then none
  else some (file_delta_new__from_one reverse
    (if ignoredFlag then .ignored else .untracked) mode none path)

/-- The record-level reverse transformation described by the spec: flip
added↔deleted (other statuses unchanged) and swap the two sides. -/
def revDelta (d : Delta) : Delta :=
  { d with
    status := match d.status with
      | .added => .deleted
      | .deleted => .added
      | s => s,
    oldAttr := d.newAttr, newAttr := d.oldAttr,
    oldOid := d.newOid, newOid := d.oldOid }

/-- `copy_prefix`: duplicate a user-supplied patch-header path prefix,
appending a trailing `/` when the string is nonempty and lacks one. -/
def copyPfx (p : String) : String :=
  if p.length > 0 ∧ p.back ≠ '/' then p ++ "/" else p

/-- The prefix setup of `git_diff_list_alloc`: a NULL option falls back to
the shared defaults `"a/"` / `"b/"`, otherwise the string is copied via
`copy_prefix`; with `GIT_DIFF_REVERSE` set, the two are swapped once. -/
def listPfxPair (reverse : Bool) (src dst : Option String) : String × String :=
  let s := match src with
    | none => "a/"
    | some p => copyPfx p
  let d := match dst with
    | none => "b/"
    | some p => copyPfx p
  if reverse then (d, s) else (s, d)

/-- `strcmp(a, b) < 0` on character lists: the byte-wise comparison all the
path ordering in diff.c goes through. -/
def charListLt : List Char → List Char → Bool
  | [], [] => false
  | [], _ :: _ => true
  | _ :: _, [] => false
  | a :: as, b :: bs =>
    if a.toNat < b.toNat then true
    else if b.toNat < a.toNat then false
    else charListLt as bs

/-- `strcmp(a, b) < 0` on paths. -/
def pathLt (a b : String) : Bool := charListLt a.toList b.toList

/-- `git__prefixcmp(str, pfx) == 0`: `pfx` is a leading run of `str`. -/
def charListIsPfx : List Char → List Char → Bool
  | [], _ => true
  | _ :: _, [] => false
  | a :: as, b :: bs => a == b && charListIsPfx as bs

/-- `git__prefixcmp` on paths: does `str` start with `p`? -/
def pathIsPfx (p str : String) : Bool := charListIsPfx p.toList str.toList

/-- An index entry (`git_index_entry`): path-keyed, with mode, oid and the
stat cache (size, ctime, mtime, dev, ino, uid, gid). -/
structure IndexEntry where
  path : String
  mode : Nat
  oid : Nat
  fileSize : Nat
  ctime : Nat
  mtime : Nat
  dev : Nat
  ino : Nat
  uid : Nat
  gid : Nat
deriving DecidableEq, Repr

/-- A scanned workdir entry (`workdir_entry`): `lstat` results plus the
canonicalised mode and the path (directories carry a trailing `/`).
`contentHash` models the oid that `git_odb__hashfd` / `git_odb__hashlink`
would compute from the file's current contents. -/
structure WorkdirEntry where
  path : String
  mode : Nat
  size : Nat
  ctime : Nat
  mtime : Nat
  dev : Nat
  ino : Nat
  uid : Nat
  gid : Nat
  contentHash : Nat
deriving DecidableEq, Repr

/-- `MODE_TYPE(m) = m & ~0777`: clear the low 9 permission bits.
On `Nat` this is `m / 512 * 512`. -/
def MODE_TYPE (m : Nat) : Nat := m / 512 * 512

/-- The match procedure of `diff_workdir_to_index_cb` (lines 549-623), run
when the workdir entry's path equals the current index entry's path.  The C
declares `int modified;` with NO initialiser and only ever assigns it inside
the mode/size branch, so when mode and size both match `modified` is read
uninitialised: `modified0` is that indeterminate initial value, and
`newOid0` the indeterminate initial contents of the local `new_oid`.
Returns the emitted records and whether the file was hashed
(`git_odb__hashfd`/`git_odb__hashlink` called). -/
def matchProcedure (reverse : Bool) (modified0 : Bool) (newOid0 : Nat)
    (wd : WorkdirEntry) (idx : IndexEntry) : List Delta × Bool :=
  if MODE_TYPE wd.mode ≠ MODE_TYPE idx.mode then
    ([file_delta_new__from_one reverse .deleted idx.mode (some idx.oid) idx.path,
      file_delta_new__from_one reverse .added wd.mode none wd.path], false)
  else
    let s1 : Bool × Nat :=
      if wd.mode ≠ idx.mode ∨ wd.size ≠ idx.fileSize then (true, 0)
      else (modified0, newOid0)
    let statInvalid : Bool :=
      decide (wd.ctime ≠ idx.ctime ∨ wd.mtime ≠ idx.mtime ∨ wd.dev ≠ idx.dev ∨
        wd.ino ≠ idx.ino ∨ wd.uid ≠ idx.uid ∨ wd.gid ≠ idx.gid)
    let s2 : Bool × Nat × Bool :=
      if !s1.1 && statInvalid then
        (decide (wd.contentHash ≠ idx.oid), wd.contentHash, true)
      else (s1.1, s1.2, false)
    if s2.1 then
      ([file_delta_new__from_tree_diff reverse wd.path
          { oldAttr := idx.mode, newAttr := wd.mode,
            oldOid := idx.oid, newOid := s2.2.1,
            status := .modified, path := wd.path }], s2.2.2)
    else ([], s2.2.2)

/-- `add_new_index_deltas`: starting at the index cursor, emit one record of
the given status per index entry while the entry's path is `strcmp`-below
`stop` (a NULL `stop` drains everything).  Returns the records and the
remaining (unconsumed) index entries. -/
def add_new_index_deltas (reverse : Bool) (status : GitStatus) :
    List IndexEntry → Option String → List Delta × List IndexEntry
  | [], _ => ([], [])
  | e :: rest, stop =>
    if (match stop with
        | none => true
        | some s => pathLt e.path s) then
      let r := add_new_index_deltas reverse status rest stop
      (file_delta_new__from_one reverse status e.mode (some e.oid) e.path :: r.1,
       r.2)
    else ([], e :: rest)

/-- A blob entry of the old tree as seen by `diff_index_to_tree_cb` after
the path join: its full path, attributes and oid.  (Non-blob entries are
filtered out by the callback before this point.) -/
structure TreeBlob where
  path : String
  attr : Nat
  oid : Nat
deriving DecidableEq, Repr

/-- `diff_index_to_tree_cb` for one blob entry of the tree: drain index
entries below the blob path as `added`; if the cursor is exhausted or ahead
of the path, emit `deleted` without advancing; otherwise advance and emit
`modified` exactly when oid or mode differ. -/
def diff_index_to_tree_cb (reverse : Bool) (te : TreeBlob)
    (idx : List IndexEntry) : List Delta × List IndexEntry :=
  let dr := add_new_index_deltas reverse .added idx (some te.path)
  match dr.2 with
  | [] =>
    (dr.1 ++ [file_delta_new__from_one reverse .deleted te.attr (some te.oid) te.path],
     [])
  | e :: rest =>
    if pathLt te.path e.path then
      (dr.1 ++ [file_delta_new__from_one reverse .deleted te.attr (some te.oid) te.path],
       e :: rest)
    else
      if e.oid ≠ te.oid ∨ e.mode ≠ te.attr then
        (dr.1 ++ [file_delta_new__from_tree_diff reverse te.path
            { oldAttr := te.attr, newAttr := e.mode,
              oldOid := te.oid, newOid := e.oid,
              status := .modified, path := e.path }],
         rest)
      else (dr.1, rest)

/-- The walk portion of `git_diff_index_to_tree`: fold the callback over the
tree's blob entries in walk order, threading the index cursor. -/
def index_to_tree_walk (reverse : Bool) :
    List TreeBlob → List IndexEntry → List Delta × List IndexEntry
  | [], idx => ([], idx)
  | te :: tes, idx =>
    let r1 := diff_index_to_tree_cb reverse te idx
    let r2 := index_to_tree_walk reverse tes r1.2
    (r1.1 ++ r2.1, r2.2)

/-- `git_diff_index_to_tree`'s successful enumeration: walk the tree, then
drain the remaining index entries as `added`. -/
def diff_index_to_tree (reverse : Bool) (tree : List TreeBlob)
    (idx : List IndexEntry) : List Delta :=
  let r := index_to_tree_walk reverse tree idx
  r.1 ++ (add_new_index_deltas reverse .added r.2 none).1

/-- `S_ISDIR`: the file-type bits (`m & 0170000`) equal `S_IFDIR = 0040000`.
Canonical modes make this `MODE_TYPE m = 0o40000` for the values diff.c
stores, and the workdir scanner gives directories a trailing `/`. -/
def modeIsDir (m : Nat) : Bool := decide (m % 65536 / 4096 * 4096 = 16384)

/-- What `diff_workdir_to_index_cb` does for one workdir entry, given the
current index cursor (`idxHead`, NULL modelled as `none`), whether the
directory contains a `.git` marker, and the ignore-engine verdict.
The branch for a directory with no `.git` evaluates
`git__prefixcmp(idx_entry->path, wd_entry->path)` unconditionally, so when
the cursor is NULL it dereferences a null pointer: modelled as `nullDeref`. -/
inductive WorkdirCbOutcome
  | records (ds : List Delta)
  | skipRepo
  | recurseInto (dir : String)
  | nullDeref
  | matched
deriving DecidableEq, Repr

/-- The dispatch of `diff_workdir_to_index_cb` (lines 515-547) after the
leading `deleted` drain: classify a workdir entry against the index cursor.
`matched` stands for falling through to the match procedure
(`matchProcedure`). -/
def diff_workdir_to_index_cb_dispatch (reverse : Bool)
    (idxHead : Option IndexEntry) (hasDotGit : Bool) (ignoredFlag : Bool)
    (wd : WorkdirEntry) : WorkdirCbOutcome :=
  if (match idxHead with
      | none => true
      | some e => pathLt wd.path e.path) then
    if !modeIsDir wd.mode then
      .records ((found_new_workdir_entry reverse ignoredFlag wd.mode wd.path).toList)
    else if hasDotGit then
      .skipRepo
    else
      match idxHead with
      | none => .nullDeref
      | some e =>
        if pathIsPfx wd.path e.path then .recurseInto wd.path
        else .records ((found_new_workdir_entry reverse ignoredFlag wd.mode wd.path).toList)
  else .matched

/-- The blob-loading action `git_diff_foreach` takes for the new side of a
record (lines 823-834): for `added` and `modified` records it looks the
record's `new_oid` up in the object database via `git_blob_lookup`; for all
other statuses it substitutes an empty buffer without any lookup.  There is
no filesystem read or re-hash anywhere in the driver. -/
inductive SideLoad
  | odbLookup (oid : Nat)
  | emptyBuf
deriving DecidableEq, Repr

/-- New-side load action of `git_diff_foreach` for one record. -/
def foreach_new_side (d : Delta) : SideLoad :=
  if d.status = .added ∨ d.status = .modified then .odbLookup d.newOid
  else .emptyBuf

/-- Old-side load action of `git_diff_foreach` for one record. -/
def foreach_old_side (d : Delta) : SideLoad :=
  if d.status = .deleted ∨ d.status = .modified then .odbLookup d.oldOid
  else .emptyBuf

/-- Run one `SideLoad` against an object database (`Nat → Option String`):
an `odbLookup` that misses is the `git_blob_lookup` failure. -/
def runSideLoad (odb : Nat → Option String) : SideLoad → Except Unit String
  | .odbLookup oid =>
    match odb oid with
    | some bytes => .ok bytes
    | none => .error ()
  | .emptyBuf => .ok ""

/-- The per-record data-mapping step of `git_diff_foreach` when a hunk or
line callback is supplied: load both sides.  A lookup failure surfaces as
an error (in the C, the failed `git_blob_lookup` leaves an error code and a
null blob that is then dereferenced). -/
def foreach_map_record (odb : Nat → Option String) (d : Delta) :
    Except Unit (String × String) := do
  let oldBytes ← runSideLoad odb (foreach_old_side d)
  let newBytes ← runSideLoad odb (foreach_new_side d)
  return (oldBytes, newBytes)

/-- The header lines built by `print_patch_file` (lines 994-1018) for a
non-binary record, given the list's source/destination path prefixes and
whether each side's blob was loaded by the driver (`NULL` blob = absent
side).  The C initialises `oldpfx/oldpath` and `newpfx/newpath`, then runs
`if (delta->old_blob == NULL) { oldpfx = ""; oldpath = "/dev/null"; }`
followed by `if (delta->new_blob == NULL) { oldpfx = ""; oldpath =
"/dev/null"; }` — the second check also reassigns the OLD side — and prints
`--- oldpfx oldpath` / `+++ newpfx newpath`.  Returned here: the `diff
--git` line and, for non-binary records, the `---` and `+++` lines. -/
def print_patch_file_lines (srcPfx dstPfx : String) (d : Delta)
    (oldBlobPresent newBlobPresent : Bool) (binary : Bool) : List String :=
  let oldpfx := srcPfx
  let oldpath := d.path
  let newpfx := dstPfx
  let newpath := d.newPath.getD d.path
  let gitLine := "diff --git " ++ oldpfx ++ d.path ++ " " ++ newpfx ++ newpath
  let op1 : String × String :=
    if !oldBlobPresent then ("", "/dev/null") else (oldpfx, oldpath)
  let op2 : String × String :=
    if !newBlobPresent then ("", "/dev/null") else op1
  if !binary then
    [gitLine, "--- " ++ op2.1 ++ op2.2, "+++ " ++ newpfx ++ newpath]
  else [gitLine]

/-- `read_next_int` over a character list: scan forward to the first digit,
accumulate the decimal value, and report whether at least one digit was
found.  Returns `(value, found, rest)` with `rest` the suffix at the first
non-digit after the number (`*str` update). -/
def read_next_int : List Char → Nat × Bool × List Char
  | [] => (0, false, [])
  | c :: cs =>
    if c.isDigit then readDigits 0 0 (c :: cs)
    else read_next_int cs
where
  /-- The digit-accumulation loop: `v = v * 10 + (*scan - '0')`. -/
  readDigits (v digits : Nat) : List Char → Nat × Bool × List Char
    | [] => (v, digits > 0, [])
    | c :: cs =>
      if c.isDigit then readDigits (v * 10 + (c.toNat - 48)) (digits + 1) cs
      else (v, digits > 0, c :: cs)

/-- A parsed hunk range (`git_diff_range`), initialised `{-1, 0, -1, 0}`. -/
structure DiffRange where
  oldStart : Int
  oldLines : Int
  newStart : Int
  newLines : Int
deriving DecidableEq, Repr

/-- The hunk-header branch of `diff_output_cb` (lines 680-694) for a single
backend buffer: if the buffer starts with `@`, parse
`@@ -start[,count] +start[,count] @@` with `read_next_int` and, when no read
failed and both starts are nonnegative, deliver the range to the hunk
callback (`some range`); otherwise deliver nothing. -/
def diff_output_hunk (buf : List Char) : Option DiffRange :=
  match buf with
  | [] => none
  | c0 :: _ =>
    if c0 = '@' then
      let r1 := read_next_int buf
      let (range1, err1, scan1) :=
        if r1.2.1 then
          if scanHeadComma r1.2.2 then
            let r2 := read_next_int r1.2.2
            (({ oldStart := r1.1, oldLines := r2.1, newStart := -1,
                newLines := 0 } : DiffRange), !r2.2.1, r2.2.2)
          else
            (({ oldStart := r1.1, oldLines := 0, newStart := -1,
                newLines := 0 } : DiffRange), false, r1.2.2)
        else
          (({ oldStart := r1.1, oldLines := 0, newStart := -1,
              newLines := 0 } : DiffRange), true, r1.2.2)
      if err1 then none
      else
        let r3 := read_next_int scan1
        let (range2, err2) :=
          if r3.2.1 then
            if scanHeadComma r3.2.2 then
              let r4 := read_next_int r3.2.2
              (({ range1 with newStart := r3.1, newLines := r4.1 } : DiffRange),
               !r4.2.1)
            else
              (({ range1 with newStart := r3.1, newLines := 0 } : DiffRange),
               false)
          else
            (({ range1 with newStart := r3.1, newLines := 0 } : DiffRange),
             true)
        if !err2 ∧ range2.oldStart ≥ 0 ∧ range2.newStart ≥ 0 then some range2
        else none
    else none
where
  /-- `*scan == ','` on the updated scan pointer. -/
  scanHeadComma : List Char → Bool
    | ',' :: _ => true
    | _ => false

/-- A blob handle passed to `git_diff_blobs`: its raw content and its oid. -/
structure Blob where
  content : String
  oid : Nat
deriving DecidableEq, Repr

/-- The `mmfile_t` pointer set up by `git_diff_blobs`: an absent blob is
replaced by the non-null literal `""`, a present blob by its (non-null) raw
content pointer.  `none` would be a null pointer; this setup never makes
one. -/
def blobs_mmfile : Option Blob → Option String
  | none => some ""
  | some b => some b.content

/-- The throwaway `git_diff_delta` populated by `git_diff_blobs`
(lines 1123-1158): with `GIT_DIFF_REVERSE` the two blob arguments are
swapped first; then each side's `mmfile` is set up (absent → `""`), the
status is classified from pointer non-nullness, and both modes are
hard-coded `0100644`.  (The oid copy calls `git_object_id` on the possibly
NULL blob; the fields proved about here — status and modes — are written
before that.) -/
def git_diff_blobs_delta (reverse : Bool) (oldBlob newBlob : Option Blob) :
    Delta :=
  let pair := if reverse then (newBlob, oldBlob) else (oldBlob, newBlob)
  let oldPtr := blobs_mmfile pair.1
  let newPtr := blobs_mmfile pair.2
  { status := match oldPtr, newPtr with
      | some _, some _ => .modified
      | some _, none => .deleted
      | none, some _ => .added
      | none, none => .untracked,
    path := "", newPath := none,
    oldAttr := 0o100644, newAttr := 0o100644,
    oldOid := (pair.1.map (·.oid)).getD 0,
    newOid := (pair.2.map (·.oid)).getD 0 }

/-- Generic enumeration on an input stream with possible failures, mirroring
the error discipline of the three enumerator entry points: a failing input
item (collaborator error) or a failing step (callback error) stops the run
at the first error; otherwise the emitted records accumulate in order. -/
def process_steps {α σ : Type} (step : σ → α → Except Int (List Delta × σ)) :
    σ → List (Except Int α) → Except Int (List Delta × σ)
  | s, [] => .ok ([], s)
  | _, .error e :: _ => .error e
  | s, .ok a :: items =>
    match step s a with
    | .error e => .error e
    | .ok (ds, s1) =>
      match process_steps step s1 items with
      | .error e => .error e
      | .ok (ds1, s2) => .ok (ds ++ ds1, s2)

/-- The first error a run over the stream hits, or `none` for a clean run. -/
def first_step_err {α σ : Type} (step : σ → α → Except Int (List Delta × σ)) :
    σ → List (Except Int α) → Option Int
  | _, [] => none
  | _, .error e :: _ => some e
  | s, .ok a :: items =>
    match step s a with
    | .error e => some e
    | .ok (_, s1) => first_step_err step s1 items

/-- The records and final state of a clean run over the stream. -/
def collect_steps {α σ : Type} (step : σ → α → Except Int (List Delta × σ)) :
    σ → List (Except Int α) → List Delta × σ
  | s, [] => ([], s)
  | s, .error _ :: _ => ([], s)
  | s, .ok a :: items =>
    match step s a with
    | .error _ => ([], s)
    | .ok (ds, s1) =>
      let r := collect_steps step s1 items
      (ds ++ r.1, r.2)

/-- The per-tuple step of `git_diff_tree_to_tree`'s walk: build one record
from the tree-diff tuple (record construction itself does not fail here;
allocation failure would arrive as an `Except.error` stream item). -/
def tree_to_tree_step (reverse : Bool) :
    Unit → TreeDiffData → Except Int (List Delta × Unit) :=
  fun _ t => .ok ([file_delta_new__from_tree_diff reverse t.path t], ())

/-- `git_diff_tree_to_tree`: run the tree-diff emission stream; on the first
error the partial delta list is freed (`git_diff_list_free`) and only the
error escapes — the caller's `diff_ptr` is written only on full success. -/
def git_diff_tree_to_tree (reverse : Bool)
    (stream : List (Except Int TreeDiffData)) : Except Int (List Delta) :=
  match process_steps (tree_to_tree_step reverse) () stream with
  | .error e => .error e
  | .ok (ds, _) => .ok ds

/-- The per-blob step of `git_diff_index_to_tree`'s tree walk. -/
def index_to_tree_step (reverse : Bool) :
    List IndexEntry → TreeBlob → Except Int (List Delta × List IndexEntry) :=
  fun idx te => .ok (diff_index_to_tree_cb reverse te idx)

/-- `git_diff_index_to_tree`: open the repository index (which may itself
fail), walk the old tree, then drain the remaining index entries as
`added`; the first error frees the partial list and is returned alone. -/
def git_diff_index_to_tree (reverse : Bool)
    (idxRes : Except Int (List IndexEntry))
    (tree : List (Except Int TreeBlob)) : Except Int (List Delta) :=
  match idxRes with
  | .error e => .error e
  | .ok idx =>
    match process_steps (index_to_tree_step reverse) idx tree with
    | .error e => .error e
    | .ok (ds, rest) =>
      .ok (ds ++ (add_new_index_deltas reverse .added rest none).1)

/-- One step of `diff_workdir_to_index_cb` over the flattened workdir
stream: drain index entries below the entry's path as `deleted`, then
dispatch on the cursor.  A `recurseInto` outcome emits nothing itself (the
subdirectory's entries follow in the stream); the NULL-cursor dereference
in the directory branch is modelled as an aborting error. -/
def workdir_to_index_step (reverse : Bool)
    (hasDotGit ignoredFlag : String → Bool) (modified0 : Bool) (newOid0 : Nat)
    (idx : List IndexEntry) (wd : WorkdirEntry) :
    Except Int (List Delta × List IndexEntry) :=
  let dr := add_new_index_deltas reverse .deleted idx (some wd.path)
  match diff_workdir_to_index_cb_dispatch reverse dr.2.head?
      (hasDotGit wd.path) (ignoredFlag wd.path) wd with
  | .records ds => .ok (dr.1 ++ ds, dr.2)
  | .skipRepo => .ok (dr.1, dr.2)
  | .recurseInto _ => .ok (dr.1, dr.2)
  | .nullDeref => .error (-1)
  | .matched =>
    match dr.2 with
    | e :: rest =>
      .ok (dr.1 ++ (matchProcedure reverse modified0 newOid0 wd e).1, rest)
    | [] => .ok (dr.1, [])

/-- `git_diff_workdir_to_index`: open the index, walk the working directory,
then drain the remaining index entries as `deleted`; the first error frees
the partial list and is returned alone. -/
def git_diff_workdir_to_index (reverse : Bool)
    (hasDotGit ignoredFlag : String → Bool) (modified0 : Bool) (newOid0 : Nat)
    (idxRes : Except Int (List IndexEntry))
    (stream : List (Except Int WorkdirEntry)) : Except Int (List Delta) :=
  match idxRes with
  | .error e => .error e
  | .ok idx =>
    match process_steps
        (workdir_to_index_step reverse hasDotGit ignoredFlag modified0 newOid0)
        idx stream with
    | .error e => .error e
    | .ok (ds, rest) =>
      .ok (ds ++ (add_new_index_deltas reverse .deleted rest none).1)

/-- A workdir entry whose mode, size and whole stat cache agree with
`cacheHitIdx`: the stat-cache-hit scenario of the fast path. -/
def cacheHitWd : WorkdirEntry :=
  { path := "f", mode := 0o100644, size := 5, ctime := 11, mtime := 12,
    dev := 13, ino := 14, uid := 15, gid := 16, contentHash := 42 }

/-- The index entry matching `cacheHitWd` on every stat-cache field. -/
def cacheHitIdx : IndexEntry :=
  { path := "f", mode := 0o100644, oid := 42, fileSize := 5, ctime := 11,
    mtime := 12, dev := 13, ino := 14, uid := 15, gid := 16 }

/-- A workdir entry whose size differs from `sizeChangeIdx` (6 vs 5): the
mode/size fast path that emits a `modified` record with a zero new hash. -/
def sizeChangeWd : WorkdirEntry :=
  { path := "f", mode := 0o100644, size := 6, ctime := 11, mtime := 12,
    dev := 13, ino := 14, uid := 15, gid := 16, contentHash := 99 }

/-- The index entry behind `sizeChangeWd`'s fast-path record. -/
def sizeChangeIdx : IndexEntry :=
  { path := "f", mode := 0o100644, oid := 42, fileSize := 5, ctime := 11,
    mtime := 12, dev := 13, ino := 14, uid := 15, gid := 16 }

/-- The `modified` record the mode/size fast path produces for
`sizeChangeWd` against `sizeChangeIdx`: new hash zero. -/
def fastPathDelta : Delta :=
  { status := .modified, path := "f", newPath := none,
    oldAttr := 0o100644, newAttr := 0o100644, oldOid := 42, newOid := 0 }

/-- An object database holding exactly the blob the index points at
(oid 42); in particular it has no object under the zero oid. -/
def smallOdb : Nat → Option String :=
  fun h => if h = 42 then some "old-bytes" else none

/-- A `deleted` record for path `foo` as the driver hands it to
`print_patch_file`: old side present, new side absent. -/
def deletedFooDelta : Delta :=
  { status := .deleted, path := "foo", newPath := none,
    oldAttr := 0o100644, newAttr := 0, oldOid := 7, newOid := 0 }

/-- The workdir entry for an untracked directory `sub/` (canonical mode
`S_IFDIR`, trailing slash added by the scanner). -/
def subDirWd : WorkdirEntry :=
  { path := "sub/", mode := 0o40000, size := 0, ctime := 0, mtime := 0,
    dev := 0, ino := 0, uid := 0, gid := 0, contentHash := 0 }

/-- The record `add_new_index_deltas` builds for one index entry. -/
def idxRecord (reverse : Bool) (status : GitStatus) (e : IndexEntry) : Delta :=
  file_delta_new__from_one reverse status e.mode (some e.oid) e.path

/-- Index entry `a` of the three-entry sorted index used to exercise the
tree↔index walk. -/
def c6IdxA : IndexEntry :=
  { path := "a", mode := 0o100644, oid := 1, fileSize := 0, ctime := 0,
    mtime := 0, dev := 0, ino := 0, uid := 0, gid := 0 }

/-- Index entry `f` (same path as the tree blob, different oid). -/
def c6IdxF : IndexEntry :=
  { path := "f", mode := 0o100644, oid := 42, fileSize := 0, ctime := 0,
    mtime := 0, dev := 0, ino := 0, uid := 0, gid := 0 }

/-- Index entry `z`, past the tree blob's path. -/
def c6IdxZ : IndexEntry :=
  { path := "z", mode := 0o100644, oid := 3, fileSize := 0, ctime := 0,
    mtime := 0, dev := 0, ino := 0, uid := 0, gid := 0 }

/-- The tree blob at path `f` with oid 43 (≠ the index's 42). -/
def c6Tree : TreeBlob := { path := "f", attr := 0o100644, oid := 43 }

/-- Claim C1 (code bug): in the stat-cache-hit scenario — workdir mode,
size, ctime, mtime, dev, ino, uid, gid all equal to the index entry's — the
match procedure never initialises its local `modified` (declared `int
modified;` and assigned only inside the mode/size branch), so whether a
record is emitted depends on the indeterminate initial value `modified0`,
and the emitted record carries the indeterminate initial `new_oid`
(here 77).  No hashing is performed either way, but the claim's
`modified = false` starting point does not exist in the code. -/
theorem c1_stat_cache_hit_reads_uninitialized_modified :
    matchProcedure false true 77 cacheHitWd cacheHitIdx =
      ([{ status := .modified, path := "f", newPath := none,
          oldAttr := 0o100644, newAttr := 0o100644,
          oldOid := 42, newOid := 77 }], false) ∧
    matchProcedure false false 77 cacheHitWd cacheHitIdx = ([], false) := by
  constructor <;> rfl

/-- Claim C2 (code bug): for a deleted file `foo` (old blob loaded, new blob
NULL, non-binary), `print_patch_file` emits `--- /dev/null` and
`+++ b/foo`, because the `new_blob == NULL` check reassigns `oldpfx` /
`oldpath` instead of the new side; the claimed output `--- a/foo` /
`+++ /dev/null` is not produced. -/
theorem c2_deleted_devnull_substituted_on_old_side :
    print_patch_file_lines "a/" "b/" deletedFooDelta true false false =
      ["diff --git a/foo b/foo", "--- /dev/null", "+++ b/foo"] ∧
    print_patch_file_lines "a/" "b/" deletedFooDelta true false false ≠
      ["diff --git a/foo b/foo", "--- a/foo", "+++ /dev/null"] := by
  constructor
  · rfl
  · decide

/-- Claim C3 (code bug): the mode/size fast path emits a `modified` record
with `new_oid = 0`; `git_diff_foreach` then resolves that record's new side
with `git_blob_lookup` on the zero oid — an object-database lookup, not a
filesystem re-read — and the lookup fails on an object database that holds
only the real blobs. -/
theorem c3_driver_looks_up_zero_hash_in_odb :
    matchProcedure false false 0 sizeChangeWd sizeChangeIdx =
      ([fastPathDelta], false) ∧
    fastPathDelta.status = .modified ∧
    fastPathDelta.newOid = 0 ∧
    foreach_new_side fastPathDelta = .odbLookup 0 ∧
    foreach_map_record smallOdb fastPathDelta = .error () := by
  refine ⟨rfl, rfl, rfl, rfl, rfl⟩

/-- Claim C9 (code bug): with an empty index and a workdir directory `sub/`
that has no `.git` marker, `diff_workdir_to_index_cb` reaches
`git__prefixcmp(idx_entry->path, wd_entry->path)` with `idx_entry == NULL`
and dereferences the null cursor instead of emitting one `untracked`
record; the whole enumeration aborts instead of succeeding. -/
theorem c9_untracked_dir_empty_index_null_deref :
    diff_workdir_to_index_cb_dispatch false none false false subDirWd =
      .nullDeref ∧
    git_diff_workdir_to_index false (fun _ => false) (fun _ => false)
      false 0 (.ok []) [.ok subDirWd] = .error (-1) := by
  constructor <;> rfl

/-- Claim C10 (confirmed): for every call to `git_diff_blobs` — either blob
possibly absent, reverse or not — the synthesized record has status
`modified` and mode `0100644` on both sides, because an absent blob's
`mmfile` is the non-null empty buffer, so the `deleted`, `added` and
`untracked` arms of the classification never fire. -/
theorem c10_blobs_delta_always_modified_100644 :
    ∀ (reverse : Bool) (oldBlob newBlob : Option Blob),
      (git_diff_blobs_delta reverse oldBlob newBlob).status = .modified ∧
      (git_diff_blobs_delta reverse oldBlob newBlob).oldAttr = 0o100644 ∧
      (git_diff_blobs_delta reverse oldBlob newBlob).newAttr = 0o100644 := by
  intro reverse oldBlob newBlob
  cases reverse <;> cases oldBlob <;> cases newBlob <;> exact ⟨rfl, rfl, rfl⟩

/-- Claim C4 counterexample: an `untracked` record built by
`found_new_workdir_entry` (which passes a NULL oid) has BOTH hashes zero,
refuting "at most one of the record's two hashes is zero (including
`ignored` and `untracked` records)". -/
theorem c4_untracked_record_has_both_hashes_zero :
    found_new_workdir_entry false false 0o100644 "foo" =
      some { status := .untracked, path := "foo", newPath := none,
             oldAttr := 0o100644, newAttr := 0, oldOid := 0, newOid := 0 } ∧
    ¬ ∀ d : Delta,
        found_new_workdir_entry false false 0o100644 "foo" = some d →
        ¬(d.oldOid = 0 ∧ d.newOid = 0) := by
  refine ⟨rfl, fun h => h _ rfl ⟨rfl, rfl⟩⟩

/-- Claim C4 as amended (proved): every record built by
`file_delta_new__from_one` satisfies: `added` ⇒ zero old mode and old hash,
`deleted` ⇒ zero new mode and new hash; and when the constructor is given a
nonzero oid (as the tree and index enumerators do), at most one of the two
hashes is zero.  Records built with a NULL oid — `untracked`/`ignored`
records and the added half of a type-change split — carry two zero
hashes. -/
theorem c4_single_sided_record_invariants :
    ∀ (reverse : Bool) (status : GitStatus) (attr : Nat) (oid : Option Nat)
      (path : String),
      ((file_delta_new__from_one reverse status attr oid path).status = .added →
        (file_delta_new__from_one reverse status attr oid path).oldAttr = 0 ∧
        (file_delta_new__from_one reverse status attr oid path).oldOid = 0) ∧
      ((file_delta_new__from_one reverse status attr oid path).status = .deleted →
        (file_delta_new__from_one reverse status attr oid path).newAttr = 0 ∧
        (file_delta_new__from_one reverse status attr oid path).newOid = 0) ∧
      (∀ h : Nat, oid = some h → h ≠ 0 →
        ¬((file_delta_new__from_one reverse status attr oid path).oldOid = 0 ∧
          (file_delta_new__from_one reverse status attr oid path).newOid = 0)) := by
  intro reverse status attr oid path
  cases reverse <;> cases status <;>
    simp [file_delta_new__from_one, flipAddDel] <;>
    · rintro h rfl hne
      simpa using hne

/-- Witness for the amended C4: the `deleted` record for a concrete index
entry has a zero new side, and with the nonzero oid 5 its hashes are not
both zero. -/
theorem c4_single_sided_record_invariants_witness :
    ((file_delta_new__from_one false .deleted 7 (some 5) "p").newAttr = 0 ∧
      (file_delta_new__from_one false .deleted 7 (some 5) "p").newOid = 0) ∧
    ¬((file_delta_new__from_one false .deleted 7 (some 5) "p").oldOid = 0 ∧
      (file_delta_new__from_one false .deleted 7 (some 5) "p").newOid = 0) :=
  ⟨(c4_single_sided_record_invariants false .deleted 7 (some 5) "p").2.1 rfl,
   (c4_single_sided_record_invariants false .deleted 7 (some 5) "p").2.2 5 rfl
     (by decide)⟩

/-- Claim C5 counterexample: under `GIT_DIFF_REVERSE` the single-sided
constructor maps an `untracked` workdir record to status `added` (the C
ternary sends every non-`added` status to `added`), so the record is NOT
the added↔deleted-flipped, side-swapped image of the non-reverse record,
and the flip is not an involution outside {added, deleted}. -/
theorem c5_reverse_turns_untracked_into_added :
    file_delta_new__from_one true .untracked 0o100644 none "f" ≠
      revDelta (file_delta_new__from_one false .untracked 0o100644 none "f") ∧
    flipAddDel (flipAddDel .untracked) ≠ .untracked := by
  constructor <;> decide

/-- Claim C5 as amended (proved): the reverse option swaps the list's two
path prefixes exactly once at allocation; every tree-diff record and every
single-sided record whose status is `added` or `deleted` is built as the
status-flipped, side-swapped image (`revDelta`) of its non-reverse
counterpart; `revDelta` and the prefix swap are involutions.  (Single-sided
`untracked`/`ignored` records fall outside this: reverse rewrites them to
`added`.) -/
theorem c5_reverse_swaps_sides_and_is_involutive :
    (∀ (pfx : String) (t : TreeDiffData),
      file_delta_new__from_tree_diff true pfx t =
        revDelta (file_delta_new__from_tree_diff false pfx t)) ∧
    (∀ (s : GitStatus) (attr : Nat) (oid : Option Nat) (path : String),
      s = .added ∨ s = .deleted →
      file_delta_new__from_one true s attr oid path =
        revDelta (file_delta_new__from_one false s attr oid path)) ∧
    (∀ d : Delta, revDelta (revDelta d) = d) ∧
    (∀ src dst : Option String,
      listPfxPair true src dst = Prod.swap (listPfxPair false src dst) ∧
      Prod.swap (Prod.swap (listPfxPair false src dst)) =
        listPfxPair false src dst) := by
  refine ⟨?_, ?_, ?_, ?_⟩
  · intro pfx t
    obtain ⟨oa, na, oo, no, s, p⟩ := t
    cases s <;> rfl
  · rintro s attr oid path (rfl | rfl) <;> rfl
  · intro d
    obtain ⟨s, p, np, oa, na, oo, no⟩ := d
    cases s <;> rfl
  · intro src dst
    cases src <;> cases dst <;> exact ⟨rfl, rfl⟩

/-- Witness for the amended C5: instantiated at an `added` record with a
concrete mode, oid and path. -/
theorem c5_reverse_swaps_sides_and_is_involutive_witness :
    file_delta_new__from_one true .added 0o100644 (some 9) "p" =
      revDelta (file_delta_new__from_one false .added 0o100644 (some 9) "p") :=
  c5_reverse_swaps_sides_and_is_involutive.2.1 .added 0o100644 (some 9) "p"
    (Or.inl rfl)

/-- Claim C8 (confirmed): the hunk-header parser skips non-digit characters
(`read_next_int` passes over any non-digit before the number), and on the
two emissions of the claim it parses `@@ -10,3 +12,5 @@ context` into
{old_start 10, old_count 3, new_start 12, new_count 5} and `@@ -0 +1 @@`
into starts {0, 1} with both counts defaulting to 0. -/
theorem c8_hunk_header_parsing :
    (∀ (c : Char) (s : List Char), c.isDigit = false →
      read_next_int (c :: s) = read_next_int s) ∧
    diff_output_hunk "@@ -10,3 +12,5 @@ context".toList =
      some { oldStart := 10, oldLines := 3, newStart := 12, newLines := 5 } ∧
    diff_output_hunk "@@ -0 +1 @@".toList =
      some { oldStart := 0, oldLines := 0, newStart := 1, newLines := 0 } := by
  refine ⟨?_, by decide, by decide⟩
  intro c s h
  simp [read_next_int, h]

/-- Witness for C8: the skip property applied at the non-digit `-` of a
hunk header. -/
theorem c8_hunk_header_parsing_witness :
    ('-'.isDigit = false) ∧
    read_next_int ('-' :: "10,3".toList) = read_next_int "10,3".toList :=
  ⟨by decide, c8_hunk_header_parsing.1 '-' "10,3".toList (by decide)⟩

/-- Byte-wise `strcmp` order fact used for the drains: if `x` is not below
`y` but is below `z`, then `z` is not below `y`. -/
theorem charListLt_false_trans :
    ∀ (x y z : List Char), charListLt x y = false → charListLt x z = true →
      charListLt z y = false := by
  intro x
  induction x with
  | nil =>
    intro y z h1 h2
    cases y with
    | nil =>
      cases z with
      | nil => simp [charListLt] at h2
      | cons c cs => rfl
    | cons b bs => simp [charListLt] at h1
  | cons a as ih =>
    intro y z h1 h2
    cases z with
    | nil => simp [charListLt] at h2
    | cons c cs =>
      cases y with
      | nil => rfl
      | cons b bs =>
        by_cases hab : a.toNat < b.toNat
        · simp [charListLt, hab] at h1
        · by_cases hac : a.toNat < c.toNat
          · have hbc : b.toNat < c.toNat :=
              lt_of_le_of_lt (Nat.le_of_not_lt hab) hac
            simp [charListLt, Nat.lt_asymm hbc, hbc]
          · by_cases hca : c.toNat < a.toNat
            · simp [charListLt, hac, hca] at h2
            · have h1a : charListLt as bs = false ∨ b.toNat < a.toNat := by
                by_cases hba : b.toNat < a.toNat
                · exact Or.inr hba
                · exact Or.inl (by simpa [charListLt, hab, hba] using h1)
              have h2a : charListLt as cs = true := by
                simpa [charListLt, hac, hca] using h2
              have hacEq : a.toNat = c.toNat :=
                Nat.le_antisymm (Nat.le_of_not_lt hca) (Nat.le_of_not_lt hac)
              rcases h1a with hrec | hba
              · by_cases hba : b.toNat < a.toNat
                · have hbc : b.toNat < c.toNat := hacEq ▸ hba
                  simp [charListLt, Nat.lt_asymm hbc, hbc]
                · have hcb : ¬ c.toNat < b.toNat := by omega
                  have hbc : ¬ b.toNat < c.toNat := by omega
                  simp [charListLt, hcb, hbc, ih bs cs hrec h2a]
              · have hbc : b.toNat < c.toNat := hacEq ▸ hba
                simp [charListLt, Nat.lt_asymm hbc, hbc]

/-- A NULL stop path drains the whole cursor tail. -/
theorem add_new_index_deltas_none (reverse : Bool) (status : GitStatus) :
    ∀ l : List IndexEntry,
      add_new_index_deltas reverse status l none =
        (l.map (idxRecord reverse status), []) := by
  intro l
  induction l with
  | nil => rfl
  | cons e rest ih => simp [add_new_index_deltas, ih, idxRecord]

/-- On a sorted cursor tail, draining below `s` emits records for exactly
the entries with path below `s` and leaves the rest as the new cursor. -/
theorem add_new_index_deltas_sorted (reverse : Bool) (status : GitStatus)
    (s : String) :
    ∀ l : List IndexEntry,
      List.Pairwise (fun a b : IndexEntry => pathLt a.path b.path = true) l →
      add_new_index_deltas reverse status l (some s) =
        ((l.filter (fun e => pathLt e.path s)).map (idxRecord reverse status),
         l.dropWhile (fun e => pathLt e.path s)) := by
  intro l
  induction l with
  | nil => intro _; rfl
  | cons e rest ih =>
    intro hp
    by_cases h : pathLt e.path s = true
    · rw [add_new_index_deltas]
      simp only [h, if_true, List.filter_cons, List.dropWhile_cons,
        ih hp.of_cons]
      simp [h, idxRecord]
    · have hall : ∀ b ∈ rest, ¬ pathLt b.path s = true := by
        intro b hb
        have heb : pathLt e.path b.path = true :=
          (List.pairwise_cons.mp hp).1 b hb
        simp only [Bool.not_eq_true]
        exact charListLt_false_trans e.path.toList s.toList b.path.toList
          (Bool.not_eq_true _ ▸ h) heb
      rw [add_new_index_deltas]
      simp only [h, if_false]
      have hfil : (e :: rest).filter (fun e => pathLt e.path s) = [] := by
        rw [List.filter_cons]
        simp only [h, if_false]
        exact List.filter_eq_nil_iff.mpr hall
      have hdrop :
          (e :: rest).dropWhile (fun e => pathLt e.path s) = e :: rest := by
        rw [List.dropWhile_cons]
        simp [h]
      rw [hfil, hdrop]
      simp

/-- Claim C6 (confirmed): at each tree blob path `P`, on a sorted index the
callback first drains exactly the index entries with path below `P` as
`added` records; then if the cursor is exhausted or strictly past `P` it
emits a `deleted` record for `P` and leaves the cursor where it was;
otherwise it advances the cursor and emits a `modified` record exactly when
oid or mode differ; and the enumeration appends the remaining index entries
as `added` records after the walk. -/
theorem c6_index_to_tree_procedure :
    ∀ (reverse : Bool) (te : TreeBlob) (idx : List IndexEntry),
      List.Pairwise (fun a b : IndexEntry => pathLt a.path b.path = true) idx →
      (diff_index_to_tree_cb reverse te idx =
        ((idx.filter (fun e => pathLt e.path te.path)).map
            (idxRecord reverse .added) ++
          (match idx.dropWhile (fun e => pathLt e.path te.path) with
           | [] => [file_delta_new__from_one reverse .deleted te.attr
                      (some te.oid) te.path]
           | e :: _ =>
             if pathLt te.path e.path then
               [file_delta_new__from_one reverse .deleted te.attr
                  (some te.oid) te.path]
             else if e.oid ≠ te.oid ∨ e.mode ≠ te.attr then
               [file_delta_new__from_tree_diff reverse te.path
                  { oldAttr := te.attr, newAttr := e.mode, oldOid := te.oid,
                    newOid := e.oid, status := .modified, path := e.path }]
             else []),
         match idx.dropWhile (fun e => pathLt e.path te.path) with
         | [] => []
         | e :: rest => if pathLt te.path e.path then e :: rest else rest)) ∧
      (∀ tree : List TreeBlob,
        diff_index_to_tree reverse tree idx =
          (index_to_tree_walk reverse tree idx).1 ++
            (index_to_tree_walk reverse tree idx).2.map
              (idxRecord reverse .added)) := by
  intro reverse te idx hs
  constructor
  · have hdr := add_new_index_deltas_sorted reverse .added te.path idx hs
    rcases hd : idx.dropWhile (fun e => pathLt e.path te.path) with _ | ⟨e, rest⟩
    · simp only [diff_index_to_tree_cb, hdr, hd]
    · simp only [diff_index_to_tree_cb, hdr, hd]
      split
      · rfl
      · split <;> simp
  · intro tree
    simp [diff_index_to_tree, add_new_index_deltas_none]

/-- Witness for C6: a sorted three-entry index `a, f, z` against a tree blob
at `f` with a different oid — `a` drains to `added`, `f` advances the cursor
and yields `modified`, `z` is drained to `added` after the walk. -/
theorem c6_index_to_tree_procedure_witness :
    List.Pairwise (fun a b : IndexEntry => pathLt a.path b.path = true)
      [c6IdxA, c6IdxF, c6IdxZ] ∧
    diff_index_to_tree_cb false c6Tree [c6IdxA, c6IdxF, c6IdxZ] =
      ([{ status := .added, path := "a", newPath := none, oldAttr := 0,
          newAttr := 0o100644, oldOid := 0, newOid := 1 },
        { status := .modified, path := "f", newPath := none,
          oldAttr := 0o100644, newAttr := 0o100644, oldOid := 43,
          newOid := 42 }], [c6IdxZ]) ∧
    diff_index_to_tree false [c6Tree] [c6IdxA, c6IdxF, c6IdxZ] =
      [{ status := .added, path := "a", newPath := none, oldAttr := 0,
         newAttr := 0o100644, oldOid := 0, newOid := 1 },
       { status := .modified, path := "f", newPath := none,
         oldAttr := 0o100644, newAttr := 0o100644, oldOid := 43,
         newOid := 42 },
       { status := .added, path := "z", newPath := none, oldAttr := 0,
         newAttr := 0o100644, oldOid := 0, newOid := 3 }] := by
  refine ⟨by decide, ?_, ?_⟩
  · exact ((c6_index_to_tree_procedure false c6Tree [c6IdxA, c6IdxF, c6IdxZ]
      (by decide)).1).trans (by decide)
  · exact ((c6_index_to_tree_procedure false c6Tree [c6IdxA, c6IdxF, c6IdxZ]
      (by decide)).2 [c6Tree]).trans (by decide)

/-- Processing a step stream equals: the first error if any step or input
item fails, otherwise the full collected output. -/
theorem process_steps_eq {α σ : Type}
    (step : σ → α → Except Int (List Delta × σ)) :
    ∀ (items : List (Except Int α)) (s : σ),
      process_steps step s items =
        match first_step_err step s items with
        | some e => .error e
        | none => .ok (collect_steps step s items) := by
  intro items
  induction items with
  | nil => intro s; rfl
  | cons it rest ih =>
    intro s
    cases it with
    | error e => rfl
    | ok a =>
      cases hstep : step s a with
      | error e => simp [process_steps, first_step_err, collect_steps, hstep]
      | ok p =>
        obtain ⟨ds, s1⟩ := p
        simp only [process_steps, first_step_err, collect_steps, hstep, ih s1]
        cases hfe : first_step_err step s1 rest <;> simp [hfe]

/-- Claim C7 (confirmed): each of the three enumerator entry points returns
exactly the first error of a failing run — with no delta list attached, so
the caller's output pointer is never set to a half-built list — and on a
clean run returns the complete list (walk records followed by the final
index drain). -/
theorem c7_first_error_and_no_partial_list :
    (∀ (reverse : Bool) (stream : List (Except Int TreeDiffData)),
      git_diff_tree_to_tree reverse stream =
        match first_step_err (tree_to_tree_step reverse) () stream with
        | some e => .error e
        | none => .ok (collect_steps (tree_to_tree_step reverse) () stream).1) ∧
    (∀ (reverse : Bool) (idxRes : Except Int (List IndexEntry))
        (tree : List (Except Int TreeBlob)),
      git_diff_index_to_tree reverse idxRes tree =
        match idxRes with
        | .error e => .error e
        | .ok idx =>
          match first_step_err (index_to_tree_step reverse) idx tree with
          | some e => .error e
          | none =>
            .ok ((collect_steps (index_to_tree_step reverse) idx tree).1 ++
              (collect_steps (index_to_tree_step reverse) idx tree).2.map
                (idxRecord reverse .added))) ∧
    (∀ (reverse : Bool) (hasDotGit ignoredFlag : String → Bool)
        (modified0 : Bool) (newOid0 : Nat)
        (idxRes : Except Int (List IndexEntry))
        (stream : List (Except Int WorkdirEntry)),
      git_diff_workdir_to_index reverse hasDotGit ignoredFlag modified0 newOid0
          idxRes stream =
        match idxRes with
        | .error e => .error e
        | .ok idx =>
          match first_step_err (workdir_to_index_step reverse hasDotGit
              ignoredFlag modified0 newOid0) idx stream with
          | some e => .error e
          | none =>
            .ok ((collect_steps (workdir_to_index_step reverse hasDotGit
                ignoredFlag modified0 newOid0) idx stream).1 ++
              (collect_steps (workdir_to_index_step reverse hasDotGit
                ignoredFlag modified0 newOid0) idx stream).2.map
                (idxRecord reverse .deleted))) := by
  refine ⟨?_, ?_, ?_⟩
  · intro reverse stream
    rw [git_diff_tree_to_tree, process_steps_eq]
    cases first_step_err (tree_to_tree_step reverse) () stream <;> rfl
  · intro reverse idxRes tree
    cases idxRes with
    | error e => rfl
    | ok idx =>
      dsimp only
      rw [git_diff_index_to_tree]
      rw [process_steps_eq]
      cases first_step_err (index_to_tree_step reverse) idx tree with
      | none => simp [add_new_index_deltas_none]
      | some e => rfl
  · intro reverse hasDotGit ignoredFlag modified0 newOid0 idxRes stream
    cases idxRes with
    | error e => rfl
    | ok idx =>
      dsimp only
      rw [git_diff_workdir_to_index]
      rw [process_steps_eq]
      cases first_step_err (workdir_to_index_step reverse hasDotGit
          ignoredFlag modified0 newOid0) idx stream with
      | none => simp [add_new_index_deltas_none]
      | some e => rfl

end GitDiff
